import Mathlib

/-!
Verification of the Echogram session/request lifecycle controller.

The session controller is `App.tsx`: a React component holding ten pieces of
state (`apiKey`, `isKeySet`, `apiKeyError`, `isKeyValidating`,
`uploadedImageFile`, `uploadedImagePreview`, `generatedImageUrl`,
`generatedPrompt`, `isLoading`, `error`) and the handlers
`handleApiKeySubmit`, `handleImageUpload`, `handleGenerate`,
`handleReselectImage`, `handleChangeApiKey`, plus a cleanup effect keyed on
`uploadedImagePreview` that revokes superseded blob preview URLs.

The embedding models the component state as `AppState`, the process-wide
service singleton (`services/GeminiService`, not part of the sources) as
`HolderState`, and the asynchronous `handleGenerate` as two steps: a
synchronous prefix (`handleGenerateStart`) that registers an in-flight call,
and a resumption (`handleGenerateResume`) applied when the environment
resolves one of the pending calls with an outcome.  `step` additionally runs
the React cleanup effect: whenever a transition changes
`uploadedImagePreview`, the previously held preview (if any, and if it is a
`blob:` URL) is recorded as revoked.
-/

namespace Echogram

/-- An uploaded binary image resource (`File`): only its identity and media
type are observable to the controller. -/
structure ImageFile where
  name : String
  mime : String
deriving DecidableEq

/-- The React state of `App.tsx`, one field per `useState` declaration, in
source order. -/
@[ext]
structure AppState where
  apiKey : String
  isKeySet : Bool
  apiKeyError : Option String
  isKeyValidating : Bool
  uploadedImageFile : Option ImageFile
  uploadedImagePreview : Option String
  generatedImageUrl : Option String
  generatedPrompt : Option String
  isLoading : Bool
  error : Option String
deriving DecidableEq

/-- Modelled from the spec: `services/GeminiService` is not among the source
files; per the Credentialed Client Holder contract it is a process-wide
singleton slot holding at most one live client bound to a credential.
`initCalls` counts `initialize` invocations (used to state that local
validation makes zero remote calls). -/
structure HolderState where
  client : Option String
  initCalls : Nat
deriving DecidableEq

/-- Modelled from the spec: the Holder's `isBound()` query — a client is
currently bound iff the singleton slot is occupied. -/
def isClientInitialized (h : HolderState) : Bool :=
  h.client.isSome

/-- Modelled from the spec: the Holder's `initialize(credential)` — on
success it atomically replaces any previously bound client with one bound to
`key`; on failure it leaves the holder in its previous state.  Every
invocation is counted. -/
def initializeUserProvidedClient (key : String) (succeeds : Bool) (h : HolderState) : HolderState :=
  if succeeds then { client := some key, initCalls := h.initCalls + 1 }
  else { h with initCalls := h.initCalls + 1 }

/-- The whole system: the component state, the service singleton, the list of
generation calls currently in flight (each carrying the file snapshot its
closure captured), a counter of encoding/remote generation calls issued, a
counter supplying fresh object URLs, and the list of preview URLs passed to
`URL.revokeObjectURL` so far. -/
@[ext]
structure Sys where
  app : AppState
  holder : HolderState
  pending : List ImageFile
  gatewayCalls : Nat
  nextUrl : Nat
  revoked : List String
deriving DecidableEq

/-- JavaScript `String.prototype.trim`: drop leading and trailing
whitespace. -/
def jsTrim (s : String) : String :=
  String.mk (((s.data.dropWhile Char.isWhitespace).reverse.dropWhile Char.isWhitespace).reverse)

/-- JavaScript `String.prototype.includes`: substring containment. -/
def jsIncludes (s pat : String) : Bool :=
  decide (pat.data <:+: s.data)

/-- `URL.createObjectURL` returns a fresh `blob:` URL for each call; the
exact text is browser-generated, so it is modelled by any injective
`blob:`-prefixed encoding of the freshness counter. -/
def mkBlobUrl (n : Nat) : String :=
  String.mk ("blob:".data ++ List.replicate n 'a')

/-- The guard `uploadedImagePreview.startsWith('blob:')` from the cleanup
effect in `App.tsx`. -/
def startsWithBlob (u : String) : Bool :=
  "blob:".data.isPrefixOf u.data

/-- The failure classification in `handleGenerate`'s catch block:
`errorMessage.includes("API Key") || errorMessage.includes("client is not initialized")`. -/
def credentialRelated (msg : String) : Bool :=
  jsIncludes msg "API Key" || jsIncludes msg "client is not initialized"

/-- Outcome of the Holder's remote credential validation, chosen by the
environment when `handleApiKeySubmit` awaits `initializeUserProvidedClient`. -/
inductive InitOutcome where
  | ok
  | fail (msg : String)
deriving DecidableEq

/-- Outcome of one encoding + remote generation call, chosen by the
environment when the corresponding promise settles: either the structured
result `{imageUrl, finalPrompt}` or a thrown error's message (an encoding
failure surfaces the same way). -/
inductive GenOutcome where
  | success (imageUrl : String) (finalPrompt : String)
  | failure (msg : String)
deriving DecidableEq

/-- `handleApiKeySubmit(submittedKey)`: an empty (after trim) key is rejected
locally with a dedicated message and no service call; otherwise the handler
awaits `initializeUserProvidedClient` and either binds (storing the key,
setting `isKeySet`, clearing errors) or records the failure message and
clears `isKeySet`.  `isKeyValidating` is set during the await and reset in
the `finally`, so atomically it nets to `false`. -/
def handleApiKeySubmit (key : String) (o : InitOutcome) (s : Sys) : Sys :=
  if jsTrim key = "" then
    { s with app := { s.app with apiKeyError := some "API Key cannot be empty.", isKeySet := false } }
  else
    match o with
    | .ok =>
      { s with
        holder := initializeUserProvidedClient key true s.holder,
        app := { s.app with
          isKeyValidating := false, apiKeyError := none,
          apiKey := key, isKeySet := true, error := none } }
    | .fail msg =>
      { s with
        holder := initializeUserProvidedClient key false s.holder,
        app := { s.app with
          isKeyValidating := false,
          apiKeyError := some ("Invalid API Key or setup failed: " ++ msg ++ ". Please check your key and try again."),
          isKeySet := false } }

/-- The mount-time effect of `App.tsx`: if the service client is somehow
already initialized, mark the key as set. -/
def mountSyncKeySet (s : Sys) : Sys :=
  if isClientInitialized s.holder then
    { s with app := { s.app with isKeySet := true } }
  else s

/-- `handleImageUpload(file)`: store the file, clear error and any previous
generation result, and store a freshly created object URL as the preview. -/
def handleImageUpload (f : ImageFile) (s : Sys) : Sys :=
  { s with
    app := { s.app with
      uploadedImageFile := some f, error := none,
      generatedImageUrl := none, generatedPrompt := none,
      uploadedImagePreview := some (mkBlobUrl s.nextUrl) },
    nextUrl := s.nextUrl + 1 }

/-- The synchronous prefix of `handleGenerate`: without an uploaded file it
only sets the error message and returns; otherwise it raises the loading
flag, clears error and previous result, and issues the encoding + remote
call (registering it as pending with the captured file snapshot). -/
def handleGenerateStart (s : Sys) : Sys :=
  match s.app.uploadedImageFile with
  | none => { s with app := { s.app with error := some "Please upload an image first." } }
  | some f =>
    { s with
      app := { s.app with
        isLoading := true, error := none,
        generatedImageUrl := none, generatedPrompt := none },
      pending := s.pending ++ [f],
      gatewayCalls := s.gatewayCalls + 1 }

/-- The resumption of `handleGenerate` when the `i`-th pending call settles:
on success the result is stored unconditionally (there is no staleness
check); on failure the message is classified — a credential-related failure
records an API-key error and clears `isKeySet`, any other failure records a
generic error.  The `finally` clause lowers the loading flag in every case.
Resolving an index with no pending call is a no-op. -/
def handleGenerateResume (i : Nat) (o : GenOutcome) (s : Sys) : Sys :=
  if i < s.pending.length then
    let s1 :=
      match o with
      | .success url p =>
        { s with app := { s.app with generatedImageUrl := some url, generatedPrompt := some p } }
      | .failure msg =>
        if credentialRelated msg then
          { s with app := { s.app with
              error := some ("Generation Failed: API Key issue. " ++ msg ++ ". Please try setting your API key again."),
              isKeySet := false } }
        else
          { s with app := { s.app with error := some ("Generation Failed: " ++ msg ++ ".") } }
    { s1 with app := { s1.app with isLoading := false }, pending := s1.pending.eraseIdx i }
  else s

/-- `handleReselectImage()`: clear file, preview, result, error and the
loading flag (resetting the file-input DOM element is presentation-only and
not part of session state). -/
def handleReselectImage (s : Sys) : Sys :=
  { s with app := { s.app with
      uploadedImageFile := none, uploadedImagePreview := none,
      generatedImageUrl := none, generatedPrompt := none,
      error := none, isLoading := false } }

/-- `handleChangeApiKey()`: clear the session's key flag, the stored key and
key error, and the image/preview/result/error state.  It calls no service
function, so the Holder is untouched. -/
def handleChangeApiKey (s : Sys) : Sys :=
  { s with app := { s.app with
      isKeySet := false, apiKey := "", apiKeyError := none,
      uploadedImageFile := none, uploadedImagePreview := none,
      generatedImageUrl := none, generatedPrompt := none, error := none } }

/-- Component teardown (unmount): the only modelled consequence is that the
held preview is superseded, so the final run of the cleanup effect revokes
it. -/
def handleTeardown (s : Sys) : Sys :=
  { s with app := { s.app with uploadedImagePreview := none } }

/-- The events the environment can inject: user actions, the settling of an
in-flight promise with an environment-chosen outcome, and teardown.
`clickGenerate` is the UI-level generate action: the button is rendered only
when a preview is shown (and the main screen only when `isKeySet`), and it
carries `disabled={isLoading}`. -/
inductive Event where
  | submitKey (key : String) (o : InitOutcome)
  | mountSync
  | selectImage (f : ImageFile)
  | genStart
  | clickGenerate
  | genResolve (i : Nat) (o : GenOutcome)
  | reselect
  | changeKey
  | teardown
deriving DecidableEq

/-- One raw transition (before the preview-cleanup effect runs). -/
def rawStep (e : Event) (s : Sys) : Sys :=
  match e with
  | .submitKey key o => handleApiKeySubmit key o s
  | .mountSync => mountSyncKeySet s
  | .selectImage f => handleImageUpload f s
  | .genStart => handleGenerateStart s
  | .clickGenerate =>
    if s.app.isKeySet && s.app.uploadedImagePreview.isSome && !s.app.isLoading then
      handleGenerateStart s
    else s
  | .genResolve i o => handleGenerateResume i o s
  | .reselect => handleReselectImage s
  | .changeKey => handleChangeApiKey s
  | .teardown => handleTeardown s

/-- The cleanup of the effect keyed on `[uploadedImagePreview]`: when the
preview changes, the previously held value is revoked if it is a `blob:`
URL. -/
def previewCleanup (old : Option String) (s : Sys) : Sys :=
  match old with
  | some u => if startsWithBlob u then { s with revoked := s.revoked ++ [u] } else s
  | none => s

/-- One full transition: the raw step followed, when the preview reference
changed, by the cleanup of the superseded preview. -/
def step (e : Event) (s : Sys) : Sys :=
  let s1 := rawStep e s
  if s1.app.uploadedImagePreview = s.app.uploadedImagePreview then s1
  else previewCleanup s.app.uploadedImagePreview s1

/-- The initial component state: every `useState` initializer from the
source. -/
def initApp : AppState :=
  { apiKey := "", isKeySet := false, apiKeyError := none, isKeyValidating := false,
    uploadedImageFile := none, uploadedImagePreview := none,
    generatedImageUrl := none, generatedPrompt := none,
    isLoading := false, error := none }

/-- The initial system: fresh component, unbound holder, nothing in flight. -/
def initSys : Sys :=
  { app := initApp, holder := { client := none, initCalls := 0 },
    pending := [], gatewayCalls := 0, nextUrl := 0, revoked := [] }

/-- Run a list of events from a given system state. -/
def foldSteps (s : Sys) (es : List Event) : Sys :=
  es.foldl (fun t e => step e t) s

/-- Run a list of events from the initial system. -/
def run (es : List Event) : Sys :=
  foldSteps initSys es

/-- The five session phases of the spec's state machine. -/
inductive Phase where
  | NeedsCredential
  | Ready
  | ImageSelected
  | Generating
  | Generated
deriving DecidableEq

/-- A generation result is present when both the image locator and the
prompt are stored (the result display also requires both). -/
def resultPresent (a : AppState) : Bool :=
  a.generatedImageUrl.isSome && a.generatedPrompt.isSome

/-- The derived session phase, read off the render conditionals of
`App.tsx`: no key set shows the credential screen; with a key but no preview
the upload zone; with a preview the loading flag marks generation in flight;
a stored result (both parts, not loading) is the generated screen; otherwise
the selected image awaits generation.  There is no stored phase field —
this function is the only notion of phase. -/
def phaseOf (a : AppState) : Phase :=
  if !a.isKeySet then .NeedsCredential
  else if !a.uploadedImagePreview.isSome then .Ready
  else if a.isLoading then .Generating
  else if resultPresent a then .Generated
  else .ImageSelected

/-- The four underlying facts the phase is derived from: key set, image
selected, generation in flight, result present. -/
def facts (a : AppState) : Bool × Bool × Bool × Bool :=
  (a.isKeySet, a.uploadedImagePreview.isSome, a.isLoading, resultPresent a)

/-- The phase as a pure function of the four facts alone. -/
def phaseFacts : Bool × Bool × Bool × Bool → Phase
  | (false, _, _, _) => .NeedsCredential
  | (true, false, _, _) => .Ready
  | (true, true, true, _) => .Generating
  | (true, true, false, true) => .Generated
  | (true, true, false, false) => .ImageSelected

/-- The key consistency invariant: whenever the session records the key as
set, the service singleton really holds a bound client. -/
def KeyInv (s : Sys) : Prop :=
  s.app.isKeySet = true → s.holder.client.isSome = true

/-- The number of held previews superseded (or torn down) along a trace: one
for each transition that replaces a present preview reference. -/
def countSuperseded : Sys → List Event → Nat
  | _, [] => 0
  | s, e :: es =>
    (if (step e s).app.uploadedImagePreview ≠ s.app.uploadedImagePreview
        ∧ s.app.uploadedImagePreview.isSome = true then 1 else 0)
      + countSuperseded (step e s) es

/-- Freshness invariant for preview URLs: every URL ever created — already
revoked or currently held — is a `blob:` URL with an identifier below the
freshness counter, and no URL occurs twice. -/
def UrlInv (s : Sys) : Prop :=
  (∀ u ∈ s.revoked ++ s.app.uploadedImagePreview.toList, ∃ k, k < s.nextUrl ∧ u = mkBlobUrl k)
  ∧ (s.revoked ++ s.app.uploadedImagePreview.toList).Nodup

theorem phaseOf_eq_phaseFacts (a : AppState) : phaseOf a = phaseFacts (facts a) := by
  cases h1 : a.isKeySet <;> cases h2 : a.uploadedImagePreview.isSome <;>
    cases h3 : a.isLoading <;> cases h4 : resultPresent a <;>
    simp [phaseOf, phaseFacts, facts, h1, h2, h3, h4]

theorem previewCleanup_app (old : Option String) (s : Sys) :
    (previewCleanup old s).app = s.app := by
  cases old with
  | none => rfl
  | some u =>
    simp only [previewCleanup]
    split <;> rfl

theorem previewCleanup_holder (old : Option String) (s : Sys) :
    (previewCleanup old s).holder = s.holder := by
  cases old with
  | none => rfl
  | some u =>
    simp only [previewCleanup]
    split <;> rfl

theorem previewCleanup_pending (old : Option String) (s : Sys) :
    (previewCleanup old s).pending = s.pending := by
  cases old with
  | none => rfl
  | some u =>
    simp only [previewCleanup]
    split <;> rfl

theorem previewCleanup_gatewayCalls (old : Option String) (s : Sys) :
    (previewCleanup old s).gatewayCalls = s.gatewayCalls := by
  cases old with
  | none => rfl
  | some u =>
    simp only [previewCleanup]
    split <;> rfl

theorem previewCleanup_nextUrl (old : Option String) (s : Sys) :
    (previewCleanup old s).nextUrl = s.nextUrl := by
  cases old with
  | none => rfl
  | some u =>
    simp only [previewCleanup]
    split <;> rfl

theorem step_app (e : Event) (s : Sys) : (step e s).app = (rawStep e s).app := by
  simp only [step]
  split
  · rfl
  · exact previewCleanup_app _ _

theorem step_holder (e : Event) (s : Sys) : (step e s).holder = (rawStep e s).holder := by
  simp only [step]
  split
  · rfl
  · exact previewCleanup_holder _ _

theorem step_pending (e : Event) (s : Sys) : (step e s).pending = (rawStep e s).pending := by
  simp only [step]
  split
  · rfl
  · exact previewCleanup_pending _ _

theorem step_gatewayCalls (e : Event) (s : Sys) :
    (step e s).gatewayCalls = (rawStep e s).gatewayCalls := by
  simp only [step]
  split
  · rfl
  · exact previewCleanup_gatewayCalls _ _

theorem step_nextUrl (e : Event) (s : Sys) : (step e s).nextUrl = (rawStep e s).nextUrl := by
  simp only [step]
  split
  · rfl
  · exact previewCleanup_nextUrl _ _

theorem phase_ready_facts (a : AppState) (h : phaseOf a = .Ready) :
    a.isKeySet = true ∧ a.uploadedImagePreview = none := by
  cases h1 : a.isKeySet <;> cases h2 : a.uploadedImagePreview <;>
    cases h3 : a.isLoading <;> cases h4 : resultPresent a <;>
    simp_all [phaseOf]

theorem phase_generating_facts (a : AppState) (h : phaseOf a = .Generating) :
    a.isKeySet = true ∧ a.uploadedImagePreview.isSome = true ∧ a.isLoading = true := by
  cases h1 : a.isKeySet <;> cases h2 : a.uploadedImagePreview <;>
    cases h3 : a.isLoading <;> cases h4 : resultPresent a <;>
    simp_all [phaseOf]

/-- C10: invoking `startGeneration()` (`handleGenerate`) when no image is
selected sets the error message to exactly "Please upload an image first."
and returns: the loading flag, image, result, credential state, the Holder,
the pending calls and the call counter are all unchanged. -/
theorem C10_generate_without_image (s : Sys) (h : s.app.uploadedImageFile = none) :
    step .genStart s =
      { s with app := { s.app with error := some "Please upload an image first." } } := by
  simp [step, rawStep, handleGenerateStart, h]

/-- C10 witness: the theorem applied to the initial system, where no image is
selected. -/
theorem C10_witness :
    step .genStart initSys =
      { initSys with app := { initSys.app with error := some "Please upload an image first." } } :=
  C10_generate_without_image initSys rfl

/-- C7: a credential that is empty or whitespace-only (its trim is empty) is
rejected locally by `handleApiKeySubmit`: the key error becomes exactly
"API Key cannot be empty.", the key flag is cleared so the phase is
`NeedsCredential`, and everything else — in particular the Holder, so zero
`initialize` calls — is unchanged. -/
theorem C7_empty_credential_rejected_locally (s : Sys) (key : String) (o : InitOutcome)
    (h : jsTrim key = "") :
    step (.submitKey key o) s =
      { s with app := { s.app with apiKeyError := some "API Key cannot be empty.", isKeySet := false } }
    ∧ phaseOf (step (.submitKey key o) s).app = .NeedsCredential
    ∧ (step (.submitKey key o) s).holder.initCalls = s.holder.initCalls := by
  have hstep : step (.submitKey key o) s =
      { s with app := { s.app with apiKeyError := some "API Key cannot be empty.", isKeySet := false } } := by
    simp [step, rawStep, handleApiKeySubmit, h]
  refine ⟨hstep, ?_, ?_⟩
  · rw [hstep]; simp [phaseOf]
  · rw [hstep]

/-- C7 witness: the theorem applied to a whitespace-only key at the initial
system. -/
theorem C7_witness :
    step (.submitKey " " .ok) initSys =
      { initSys with app := { initSys.app with apiKeyError := some "API Key cannot be empty.", isKeySet := false } }
    ∧ phaseOf (step (.submitKey " " .ok) initSys).app = .NeedsCredential
    ∧ (step (.submitKey " " .ok) initSys).holder.initCalls = initSys.holder.initCalls :=
  C7_empty_credential_rejected_locally initSys " " .ok (by decide)

/-- C2 counterexample: after a successful `submitCredential("k")` followed by
`changeCredential()`, the phase is `NeedsCredential` but the Holder still
reports bound — `isBound()` returns `true`, refuting the claim that it
returns `false` afterwards (`handleChangeApiKey` calls no service
function). -/
theorem C2_counterexample :
    phaseOf (run [.submitKey "k" .ok, .changeKey]).app = .NeedsCredential
    ∧ isClientInitialized (run [.submitKey "k" .ok, .changeKey]).holder = true := by
  decide

/-- C2 amended: `changeCredential()` from any state yields phase
`NeedsCredential` with the credential string, key error, selected image,
preview, generation result and error message all cleared — but the Holder is
untouched, so a previously bound client remains bound. -/
theorem C2_changeCredential_clears_session (s : Sys) :
    (step .changeKey s).holder = s.holder
    ∧ (step .changeKey s).app =
      { s.app with
        isKeySet := false
        apiKey := ""
        apiKeyError := none
        uploadedImageFile := none
        uploadedImagePreview := none
        generatedImageUrl := none
        generatedPrompt := none
        error := none }
    ∧ phaseOf (step .changeKey s).app = .NeedsCredential := by
  refine ⟨?_, ?_, ?_⟩
  · rw [step_holder]; rfl
  · rw [step_app]; rfl
  · rw [step_app]; simp [rawStep, handleChangeApiKey, phaseOf]

theorem reselect_preview_none (s : Sys) :
    (step .reselect s).app.uploadedImagePreview = none := by
  rw [step_app]; rfl

theorem step_reselect_eq (s : Sys) (hp : s.app.uploadedImagePreview = none) :
    step .reselect s = handleReselectImage s := by
  have hc : (rawStep .reselect s).app.uploadedImagePreview = s.app.uploadedImagePreview := by
    rw [hp]; rfl
  show (if (rawStep .reselect s).app.uploadedImagePreview = s.app.uploadedImagePreview
        then rawStep .reselect s
        else previewCleanup s.app.uploadedImagePreview (rawStep .reselect s)) =
      handleReselectImage s
  rw [if_pos hc]; rfl

/-- C9: `reselectImage()` is idempotent — for every system state, applying it
twice yields exactly the state of applying it once — and from phase `Ready`
with its clearable fields already empty it is a no-op. -/
theorem C9_reselect_idempotent (s : Sys) :
    step .reselect (step .reselect s) = step .reselect s
    ∧ (phaseOf s.app = .Ready → s.app.uploadedImageFile = none →
       s.app.generatedImageUrl = none → s.app.generatedPrompt = none →
       s.app.error = none → s.app.isLoading = false →
       step .reselect s = s) := by
  constructor
  · rw [step_reselect_eq (step .reselect s) (reselect_preview_none s)]
    show handleReselectImage (step .reselect s) = step .reselect s
    simp only [step, rawStep]
    split
    · rfl
    · cases ho : s.app.uploadedImagePreview with
      | none => rfl
      | some u =>
        simp only [previewCleanup]
        split <;> rfl
  · intro hR h1 h2 h3 h4 h5
    obtain ⟨hk, hp⟩ := phase_ready_facts s.app hR
    rw [step_reselect_eq s hp]
    exact Sys.ext (AppState.ext rfl rfl rfl rfl h1.symm hp.symm h2.symm h3.symm h5.symm h4.symm)
      rfl rfl rfl rfl rfl

/-- C9 witness: the theorem applied at the `Ready` state reached by a single
successful credential submission. -/
theorem C9_witness :
    step .reselect (step .reselect (run [.submitKey "k" .ok])) =
      step .reselect (run [.submitKey "k" .ok])
    ∧ step .reselect (run [.submitKey "k" .ok]) = run [.submitKey "k" .ok] :=
  ⟨(C9_reselect_idempotent (run [.submitKey "k" .ok])).1,
   (C9_reselect_idempotent (run [.submitKey "k" .ok])).2
     (by decide) (by decide) (by decide) (by decide) (by decide) (by decide)⟩

/-- C1 counterexample: `selectImage(A)`, `startGeneration()` (C1),
`selectImage(B)`, `startGeneration()` (C2); C2 resolves with result
`("u2","p2")`, then C1 resolves with `("u1","p1")`.  The stored result is
C1's `("u1","p1")`, not C2's — `handleGenerate` applies a resolved result
unconditionally, so the stale call's result does overwrite the state
produced by C2, refuting the claim. -/
theorem C1_counterexample :
    (run [.submitKey "k" .ok, .selectImage ⟨"a", "image/png"⟩, .genStart,
          .selectImage ⟨"b", "image/png"⟩, .genStart,
          .genResolve 1 (.success "u2" "p2"),
          .genResolve 0 (.success "u1" "p1")]).app.generatedImageUrl = some "u1"
    ∧ (run [.submitKey "k" .ok, .selectImage ⟨"a", "image/png"⟩, .genStart,
            .selectImage ⟨"b", "image/png"⟩, .genStart,
            .genResolve 1 (.success "u2" "p2"),
            .genResolve 0 (.success "u1" "p1")]).app.generatedPrompt = some "p1"
    ∧ ("u1" : String) ≠ "u2" := by
  decide

/-- C1 amended: the controller performs no staleness check, so the stored
result is the last resolution applied ("last writer wins"): for every pair
of images and every pair of generation payloads, when the first call
resolves after the second, the stored result is the first (stale) call's. -/
theorem C1_last_writer_wins (fA fB : ImageFile) (u1 p1 u2 p2 : String) :
    (run [.submitKey "k" .ok, .selectImage fA, .genStart, .selectImage fB, .genStart,
          .genResolve 1 (.success u2 p2),
          .genResolve 0 (.success u1 p1)]).app.generatedImageUrl = some u1
    ∧ (run [.submitKey "k" .ok, .selectImage fA, .genStart, .selectImage fB, .genStart,
            .genResolve 1 (.success u2 p2),
            .genResolve 0 (.success u1 p1)]).app.generatedPrompt = some p1 :=
  ⟨rfl, rfl⟩

/-- C5 counterexample: from phase `Generating`, invoking `startGeneration()`
(`handleGenerate`) directly is not a no-op — it issues a second encoding and
remote call, leaving two calls outstanding.  The handler itself has no
re-entry gate; only the UI control is disabled. -/
theorem C5_counterexample :
    phaseOf (run [.submitKey "k" .ok, .selectImage ⟨"a", "image/png"⟩, .genStart]).app
      = .Generating
    ∧ (run [.submitKey "k" .ok, .selectImage ⟨"a", "image/png"⟩, .genStart]).gatewayCalls = 1
    ∧ (run [.submitKey "k" .ok, .selectImage ⟨"a", "image/png"⟩,
            .genStart, .genStart]).gatewayCalls = 2
    ∧ (run [.submitKey "k" .ok, .selectImage ⟨"a", "image/png"⟩,
            .genStart, .genStart]).pending.length = 2 := by
  decide

/-- C5 amended: the generate action is a no-op while `Generating` only at the
UI level — the triggering control carries `disabled={isLoading}`, so clicking
it in phase `Generating` changes nothing and issues no call; the controller
function itself does not gate re-entry. -/
theorem C5_click_generate_gated (s : Sys) (h : phaseOf s.app = .Generating) :
    step .clickGenerate s = s := by
  obtain ⟨hk, hp, hl⟩ := phase_generating_facts s.app h
  have hraw : rawStep .clickGenerate s = s := by
    simp [rawStep, hk, hl]
  show (if (rawStep .clickGenerate s).app.uploadedImagePreview = s.app.uploadedImagePreview
        then rawStep .clickGenerate s
        else previewCleanup s.app.uploadedImagePreview (rawStep .clickGenerate s)) = s
  rw [hraw, if_pos rfl]

/-- C5 witness: clicking generate in a concrete `Generating` state is a
no-op. -/
theorem C5_witness :
    step .clickGenerate (run [.submitKey "k" .ok, .selectImage ⟨"a", "image/png"⟩, .genStart]) =
      run [.submitKey "k" .ok, .selectImage ⟨"a", "image/png"⟩, .genStart] :=
  C5_click_generate_gated _ (by decide)

theorem phase_generated_facts (a : AppState) (h : phaseOf a = .Generated) :
    a.isKeySet = true ∧ resultPresent a = true := by
  cases h1 : a.isKeySet <;> cases h2 : a.uploadedImagePreview <;>
    cases h3 : a.isLoading <;> cases h4 : resultPresent a <;>
    simp_all [phaseOf]

theorem keyInv_raw (e : Event) (s : Sys) (h : KeyInv s) : KeyInv (rawStep e s) := by
  unfold KeyInv at h ⊢
  cases e with
  | submitKey key o =>
    simp only [rawStep, handleApiKeySubmit]
    split
    · simp
    · cases o with
      | ok => simp [initializeUserProvidedClient]
      | fail msg => simp [initializeUserProvidedClient]
  | mountSync =>
    simp only [rawStep, mountSyncKeySet]
    split
    · next hinit =>
      simp only [isClientInitialized] at hinit
      simp [hinit]
    · exact h
  | selectImage f => simpa [rawStep, handleImageUpload] using h
  | genStart =>
    simp only [rawStep, handleGenerateStart]
    cases hf : s.app.uploadedImageFile <;> simp_all
  | clickGenerate =>
    simp only [rawStep]
    split
    · simp only [handleGenerateStart]
      cases hf : s.app.uploadedImageFile <;> simp_all
    · exact h
  | genResolve i o =>
    cases o with
    | success url p =>
      simp only [rawStep, handleGenerateResume]
      split
      · simpa using h
      · exact h
    | failure msg =>
      simp only [rawStep, handleGenerateResume]
      split
      · by_cases hc : credentialRelated msg = true
        · simp [hc]
        · simpa [hc] using h
      · exact h
  | reselect => simpa [rawStep, handleReselectImage] using h
  | changeKey => simp [rawStep, handleChangeApiKey]
  | teardown => simpa [rawStep, handleTeardown] using h

theorem keyInv_step (e : Event) (s : Sys) (h : KeyInv s) : KeyInv (step e s) := by
  unfold KeyInv
  rw [step_app, step_holder]
  exact keyInv_raw e s h

theorem keyInv_foldSteps : ∀ (es : List Event) (s : Sys), KeyInv s → KeyInv (foldSteps s es)
  | [], _, h => h
  | e :: es, s, h => keyInv_foldSteps es (step e s) (keyInv_step e s h)

theorem keyInv_run (es : List Event) : KeyInv (run es) :=
  keyInv_foldSteps es initSys (fun h => Bool.noConfusion h)

/-- C3: the session phase is derived, never stored: `phaseOf` (read off the
render conditionals, with no phase field anywhere in `AppState`) is a pure
function of the four underlying facts — key set, image selected, generation
in flight, result present — so two states agreeing on the facts agree on the
phase; and along every event sequence the phase is consistent: `Generated`
implies both result components are present and the Holder really holds a
bound client. -/
theorem C3_phase_is_pure_function_of_facts (a b : AppState) (es : List Event)
    (hfacts : facts a = facts b)
    (hgen : phaseOf (run es).app = .Generated) :
    phaseOf a = phaseOf b
    ∧ resultPresent (run es).app = true
    ∧ (run es).app.generatedImageUrl.isSome = true
    ∧ isClientInitialized (run es).holder = true := by
  obtain ⟨hk, hres⟩ := phase_generated_facts (run es).app hgen
  refine ⟨?_, hres, ?_, ?_⟩
  · rw [phaseOf_eq_phaseFacts, phaseOf_eq_phaseFacts, hfacts]
  · simp only [resultPresent, Bool.and_eq_true] at hres
    exact hres.1
  · exact keyInv_run es hk

/-- C3 witness: the theorem applied to two equal states and a concrete run
ending in `Generated`. -/
theorem C3_witness :
    phaseOf initApp = phaseOf initApp
    ∧ resultPresent (run [.submitKey "k" .ok, .selectImage ⟨"a", "image/png"⟩, .genStart,
        .genResolve 0 (.success "u" "p")]).app = true
    ∧ (run [.submitKey "k" .ok, .selectImage ⟨"a", "image/png"⟩, .genStart,
        .genResolve 0 (.success "u" "p")]).app.generatedImageUrl.isSome = true
    ∧ isClientInitialized (run [.submitKey "k" .ok, .selectImage ⟨"a", "image/png"⟩, .genStart,
        .genResolve 0 (.success "u" "p")]).holder = true :=
  C3_phase_is_pure_function_of_facts initApp initApp
    [.submitKey "k" .ok, .selectImage ⟨"a", "image/png"⟩, .genStart,
     .genResolve 0 (.success "u" "p")] rfl (by decide)

/-- C4: a generation failure classified as credential-related, resolved while
in phase `Generating`, routes the session to `NeedsCredential` (the key-set
flag is cleared) while preserving the selected image file and preview in the
underlying state, so that a subsequent successful `submitCredential` lands
directly in phase `ImageSelected`. -/
theorem C4_credential_failure_preserves_image (s : Sys) (i : Nat) (msg k2 : String)
    (hph : phaseOf s.app = .Generating)
    (hi : i < s.pending.length)
    (hcred : credentialRelated msg = true)
    (hurl : s.app.generatedImageUrl = none)
    (hk2 : ¬jsTrim k2 = "") :
    phaseOf (step (.genResolve i (.failure msg)) s).app = .NeedsCredential
    ∧ (step (.genResolve i (.failure msg)) s).app.uploadedImageFile = s.app.uploadedImageFile
    ∧ (step (.genResolve i (.failure msg)) s).app.uploadedImagePreview = s.app.uploadedImagePreview
    ∧ phaseOf (step (.submitKey k2 .ok) (step (.genResolve i (.failure msg)) s)).app
        = .ImageSelected := by
  obtain ⟨hk, hp, hl⟩ := phase_generating_facts s.app hph
  have h1 : (step (.genResolve i (.failure msg)) s).app =
      { s.app with
        error := some ("Generation Failed: API Key issue. " ++ msg ++ ". Please try setting your API key again.")
        isKeySet := false
        isLoading := false } := by
    rw [step_app]
    simp [rawStep, handleGenerateResume, hi, hcred]
  have h2 : (step (.submitKey k2 .ok) (step (.genResolve i (.failure msg)) s)).app =
      { (step (.genResolve i (.failure msg)) s).app with
        isKeyValidating := false
        apiKeyError := none
        apiKey := k2
        isKeySet := true
        error := none } := by
    rw [step_app]
    simp [rawStep, handleApiKeySubmit, hk2]
  refine ⟨?_, ?_, ?_, ?_⟩
  · rw [h1]; simp [phaseOf]
  · rw [h1]
  · rw [h1]
  · rw [h2, h1]
    simp [phaseOf, resultPresent, hp, hurl]

/-- C4 witness: the theorem applied to the concrete `Generating` state with
image `"a"` in flight, a failure mentioning "API Key", and a fresh key. -/
theorem C4_witness :
    phaseOf (step (.genResolve 0 (.failure "bad API Key"))
        (run [.submitKey "k" .ok, .selectImage ⟨"a", "image/png"⟩, .genStart])).app
      = .NeedsCredential
    ∧ (step (.genResolve 0 (.failure "bad API Key"))
        (run [.submitKey "k" .ok, .selectImage ⟨"a", "image/png"⟩, .genStart])).app.uploadedImageFile
      = (run [.submitKey "k" .ok, .selectImage ⟨"a", "image/png"⟩, .genStart]).app.uploadedImageFile
    ∧ (step (.genResolve 0 (.failure "bad API Key"))
        (run [.submitKey "k" .ok, .selectImage ⟨"a", "image/png"⟩, .genStart])).app.uploadedImagePreview
      = (run [.submitKey "k" .ok, .selectImage ⟨"a", "image/png"⟩, .genStart]).app.uploadedImagePreview
    ∧ phaseOf (step (.submitKey "k2" .ok) (step (.genResolve 0 (.failure "bad API Key"))
        (run [.submitKey "k" .ok, .selectImage ⟨"a", "image/png"⟩, .genStart]))).app
      = .ImageSelected :=
  C4_credential_failure_preserves_image
    (run [.submitKey "k" .ok, .selectImage ⟨"a", "image/png"⟩, .genStart])
    0 "bad API Key" "k2" (by decide) (by decide) (by decide) (by decide) (by decide)

/-- C6: a failed generation attempt is classified as credential-related
exactly by `credentialRelated` (the message contains "API Key" or "client is
not initialized"); a credential-related failure clears the key-set flag and
routes to `NeedsCredential` with the API-key-issue message, while every
other failure keeps the key flag and routes back to `ImageSelected` with
`error` set to exactly "Generation Failed: {msg}." — in both cases the
credential string, the selected image and the Holder are preserved. -/
theorem C6_failure_classification (s : Sys) (i : Nat) (msg : String)
    (hi : i < s.pending.length) :
    ((step (.genResolve i (.failure msg)) s).app.uploadedImageFile = s.app.uploadedImageFile
    ∧ (step (.genResolve i (.failure msg)) s).app.uploadedImagePreview = s.app.uploadedImagePreview
    ∧ (step (.genResolve i (.failure msg)) s).app.apiKey = s.app.apiKey
    ∧ (step (.genResolve i (.failure msg)) s).holder = s.holder
    ∧ (step (.genResolve i (.failure msg)) s).app.isLoading = false)
    ∧ (credentialRelated msg = true →
        (step (.genResolve i (.failure msg)) s).app.isKeySet = false
        ∧ phaseOf (step (.genResolve i (.failure msg)) s).app = .NeedsCredential
        ∧ (step (.genResolve i (.failure msg)) s).app.error =
            some ("Generation Failed: API Key issue. " ++ msg ++ ". Please try setting your API key again."))
    ∧ (credentialRelated msg = false →
        (step (.genResolve i (.failure msg)) s).app.isKeySet = s.app.isKeySet
        ∧ (step (.genResolve i (.failure msg)) s).app.error =
            some ("Generation Failed: " ++ msg ++ ".")
        ∧ (s.app.isKeySet = true → s.app.uploadedImagePreview.isSome = true →
           s.app.generatedImageUrl = none →
           phaseOf (step (.genResolve i (.failure msg)) s).app = .ImageSelected)) := by
  have hh : (step (.genResolve i (.failure msg)) s).holder = s.holder := by
    rw [step_holder]
    simp only [rawStep, handleGenerateResume, if_pos hi]
    split <;> rfl
  cases hc : credentialRelated msg with
  | true =>
    have h1 : (step (.genResolve i (.failure msg)) s).app =
        { s.app with
          error := some ("Generation Failed: API Key issue. " ++ msg ++ ". Please try setting your API key again.")
          isKeySet := false
          isLoading := false } := by
      rw [step_app]
      simp [rawStep, handleGenerateResume, hi, hc]
    refine ⟨⟨?_, ?_, ?_, hh, ?_⟩, ?_, ?_⟩
    · rw [h1]
    · rw [h1]
    · rw [h1]
    · rw [h1]
    · intro _
      refine ⟨?_, ?_, ?_⟩
      · rw [h1]
      · rw [h1]; simp [phaseOf]
      · rw [h1]
    · intro hfalse
      exact Bool.noConfusion hfalse
  | false =>
    have h1 : (step (.genResolve i (.failure msg)) s).app =
        { s.app with
          error := some ("Generation Failed: " ++ msg ++ ".")
          isLoading := false } := by
      rw [step_app]
      simp [rawStep, handleGenerateResume, hi, hc]
    refine ⟨⟨?_, ?_, ?_, hh, ?_⟩, ?_, ?_⟩
    · rw [h1]
    · rw [h1]
    · rw [h1]
    · rw [h1]
    · intro htrue
      exact Bool.noConfusion htrue
    · intro _
      refine ⟨?_, ?_, ?_⟩
      · rw [h1]
      · rw [h1]
      · intro hk hp hurl
        rw [h1]
        simp [phaseOf, resultPresent, hk, hp, hurl]

/-- C6 witness: the theorem applied to the concrete in-flight state, resolved
with the non-credential failure message "oops". -/
theorem C6_witness :
    ((step (.genResolve 0 (.failure "oops"))
        (run [.submitKey "k" .ok, .selectImage ⟨"a", "image/png"⟩, .genStart])).app.uploadedImageFile
      = (run [.submitKey "k" .ok, .selectImage ⟨"a", "image/png"⟩, .genStart]).app.uploadedImageFile
    ∧ (step (.genResolve 0 (.failure "oops"))
        (run [.submitKey "k" .ok, .selectImage ⟨"a", "image/png"⟩, .genStart])).app.uploadedImagePreview
      = (run [.submitKey "k" .ok, .selectImage ⟨"a", "image/png"⟩, .genStart]).app.uploadedImagePreview
    ∧ (step (.genResolve 0 (.failure "oops"))
        (run [.submitKey "k" .ok, .selectImage ⟨"a", "image/png"⟩, .genStart])).app.apiKey
      = (run [.submitKey "k" .ok, .selectImage ⟨"a", "image/png"⟩, .genStart]).app.apiKey
    ∧ (step (.genResolve 0 (.failure "oops"))
        (run [.submitKey "k" .ok, .selectImage ⟨"a", "image/png"⟩, .genStart])).holder
      = (run [.submitKey "k" .ok, .selectImage ⟨"a", "image/png"⟩, .genStart]).holder
    ∧ (step (.genResolve 0 (.failure "oops"))
        (run [.submitKey "k" .ok, .selectImage ⟨"a", "image/png"⟩, .genStart])).app.isLoading = false)
    ∧ (credentialRelated "oops" = true →
        (step (.genResolve 0 (.failure "oops"))
          (run [.submitKey "k" .ok, .selectImage ⟨"a", "image/png"⟩, .genStart])).app.isKeySet = false
        ∧ phaseOf (step (.genResolve 0 (.failure "oops"))
            (run [.submitKey "k" .ok, .selectImage ⟨"a", "image/png"⟩, .genStart])).app = .NeedsCredential
        ∧ (step (.genResolve 0 (.failure "oops"))
            (run [.submitKey "k" .ok, .selectImage ⟨"a", "image/png"⟩, .genStart])).app.error =
            some ("Generation Failed: API Key issue. " ++ "oops" ++ ". Please try setting your API key again."))
    ∧ (credentialRelated "oops" = false →
        (step (.genResolve 0 (.failure "oops"))
          (run [.submitKey "k" .ok, .selectImage ⟨"a", "image/png"⟩, .genStart])).app.isKeySet
          = (run [.submitKey "k" .ok, .selectImage ⟨"a", "image/png"⟩, .genStart]).app.isKeySet
        ∧ (step (.genResolve 0 (.failure "oops"))
            (run [.submitKey "k" .ok, .selectImage ⟨"a", "image/png"⟩, .genStart])).app.error =
            some ("Generation Failed: " ++ "oops" ++ ".")
        ∧ ((run [.submitKey "k" .ok, .selectImage ⟨"a", "image/png"⟩, .genStart]).app.isKeySet = true →
           (run [.submitKey "k" .ok, .selectImage ⟨"a", "image/png"⟩, .genStart]).app.uploadedImagePreview.isSome = true →
           (run [.submitKey "k" .ok, .selectImage ⟨"a", "image/png"⟩, .genStart]).app.generatedImageUrl = none →
           phaseOf (step (.genResolve 0 (.failure "oops"))
             (run [.submitKey "k" .ok, .selectImage ⟨"a", "image/png"⟩, .genStart])).app = .ImageSelected)) :=
  C6_failure_classification
    (run [.submitKey "k" .ok, .selectImage ⟨"a", "image/png"⟩, .genStart])
    0 "oops" (by decide)

theorem isPrefixOf_append_self {α : Type} [BEq α] [LawfulBEq α] :
    ∀ (l t : List α), l.isPrefixOf (l ++ t) = true
  | [], t => by simp [List.isPrefixOf]
  | a :: as, t => by simp [List.isPrefixOf, isPrefixOf_append_self as t]

theorem startsWithBlob_mkBlobUrl (n : Nat) : startsWithBlob (mkBlobUrl n) = true := by
  show "blob:".data.isPrefixOf ("blob:".data ++ List.replicate n 'a') = true
  exact isPrefixOf_append_self _ _

theorem mkBlobUrl_inj {m n : Nat} (h : mkBlobUrl m = mkBlobUrl n) : m = n := by
  have hd : "blob:".data ++ List.replicate m 'a' = "blob:".data ++ List.replicate n 'a' :=
    congrArg String.data h
  have hr : List.replicate m 'a' = List.replicate n 'a' := List.append_cancel_left hd
  have hl := congrArg List.length hr
  simpa using hl

theorem urlBound_mono {l : List String} {n m : Nat} (hnm : n ≤ m)
    (hb : ∀ u ∈ l, ∃ k, k < n ∧ u = mkBlobUrl k) :
    ∀ u ∈ l, ∃ k, k < m ∧ u = mkBlobUrl k := by
  intro u hu
  obtain ⟨k, hk, he⟩ := hb u hu
  exact ⟨k, lt_of_lt_of_le hk hnm, he⟩

theorem urlList_extend {l : List String} {n : Nat}
    (hb : ∀ u ∈ l, ∃ k, k < n ∧ u = mkBlobUrl k) (hd : l.Nodup) :
    (∀ u ∈ l ++ [mkBlobUrl n], ∃ k, k < n + 1 ∧ u = mkBlobUrl k)
    ∧ (l ++ [mkBlobUrl n]).Nodup := by
  constructor
  · intro u hu
    rcases List.mem_append.mp hu with h1 | h1
    · obtain ⟨k, hk, he⟩ := hb u h1
      exact ⟨k, Nat.lt_succ_of_lt hk, he⟩
    · rcases List.mem_singleton.mp h1 with rfl
      exact ⟨n, Nat.lt_succ_self n, rfl⟩
  · refine List.Nodup.append hd (List.nodup_singleton _) ?_
    intro u hu hu'
    rcases List.mem_singleton.mp hu' with rfl
    obtain ⟨k, hk, he⟩ := hb _ hu
    exact absurd (mkBlobUrl_inj he) (by omega)

/-- Characterization of one raw transition's effect on the preview machinery:
it never touches the revoked list, and the preview is either left alone,
cleared, or replaced by a freshly created URL (bumping the counter). -/
theorem rawStep_char (e : Event) (s : Sys) :
    (rawStep e s).revoked = s.revoked
    ∧ (((rawStep e s).nextUrl = s.nextUrl
        ∧ ((rawStep e s).app.uploadedImagePreview = s.app.uploadedImagePreview
           ∨ (rawStep e s).app.uploadedImagePreview = none))
      ∨ ((rawStep e s).nextUrl = s.nextUrl + 1
         ∧ (rawStep e s).app.uploadedImagePreview = some (mkBlobUrl s.nextUrl))) := by
  cases e with
  | submitKey key o =>
    simp only [rawStep, handleApiKeySubmit]
    split
    · simp
    · cases o <;> simp
  | mountSync =>
    simp only [rawStep, mountSyncKeySet]
    split <;> simp
  | selectImage f => simp [rawStep, handleImageUpload]
  | genStart =>
    simp only [rawStep, handleGenerateStart]
    cases s.app.uploadedImageFile <;> simp
  | clickGenerate =>
    simp only [rawStep]
    split
    · simp only [handleGenerateStart]
      cases s.app.uploadedImageFile <;> simp
    · simp
  | genResolve i o =>
    cases o with
    | success url p =>
      simp only [rawStep, handleGenerateResume]
      split <;> simp
    | failure msg =>
      simp only [rawStep, handleGenerateResume]
      split
      · by_cases hc : credentialRelated msg = true <;> simp [hc]
      · simp
  | reselect => simp [rawStep, handleReselectImage]
  | changeKey => simp [rawStep, handleChangeApiKey]
  | teardown => simp [rawStep, handleTeardown]

theorem step_urlInv (e : Event) (s : Sys) (h : UrlInv s) :
    UrlInv (step e s)
    ∧ (step e s).revoked.length = s.revoked.length
        + (if (step e s).app.uploadedImagePreview ≠ s.app.uploadedImagePreview
              ∧ s.app.uploadedImagePreview.isSome = true then 1 else 0) := by
  obtain ⟨hb, hd⟩ := h
  obtain ⟨hrev, hchar⟩ := rawStep_char e s
  by_cases hp : (rawStep e s).app.uploadedImagePreview = s.app.uploadedImagePreview
  · have hstep : step e s = rawStep e s := by simp [step, hp]
    rw [hstep]
    refine ⟨⟨?_, ?_⟩, ?_⟩
    · rw [hrev, hp]
      rcases hchar with ⟨hn, _⟩ | ⟨hn, _⟩
      · rw [hn]; exact hb
      · rw [hn]; exact urlBound_mono (Nat.le_succ _) hb
    · rw [hrev, hp]; exact hd
    · rw [hrev, hp]; simp
  · have hstep : step e s = previewCleanup s.app.uploadedImagePreview (rawStep e s) := by
      simp [step, hp]
    have hraw : ((rawStep e s).nextUrl = s.nextUrl
          ∧ (rawStep e s).app.uploadedImagePreview = none)
        ∨ ((rawStep e s).nextUrl = s.nextUrl + 1
          ∧ (rawStep e s).app.uploadedImagePreview = some (mkBlobUrl s.nextUrl)) := by
      rcases hchar with ⟨hn, hsame | hnone⟩ | hfresh
      · exact absurd hsame hp
      · exact Or.inl ⟨hn, hnone⟩
      · exact Or.inr hfresh
    cases hop : s.app.uploadedImagePreview with
    | none =>
      rw [hop] at hb hd
      simp only [Option.toList_none, List.append_nil] at hb hd
      have hclean : previewCleanup s.app.uploadedImagePreview (rawStep e s) = rawStep e s := by
        rw [hop]; rfl
      rw [hstep, hclean]
      rcases hraw with ⟨hn, hnone⟩ | ⟨hn, hfresh⟩
      · rw [hop] at hp; exact absurd hnone hp
      · refine ⟨⟨?_, ?_⟩, ?_⟩
        · rw [hrev, hn, hfresh]
          simpa using (urlList_extend hb hd).1
        · rw [hrev, hfresh]
          simpa using (urlList_extend hb hd).2
        · rw [hrev]; simp
    | some u0 =>
      rw [hop] at hb hd
      simp only [Option.toList_some] at hb hd
      obtain ⟨k, hk, hek⟩ := hb u0 (List.mem_append.mpr (Or.inr (List.mem_singleton.mpr rfl)))
      have hsw : startsWithBlob u0 = true := by
        rw [hek]; exact startsWithBlob_mkBlobUrl k
      have hclean : previewCleanup s.app.uploadedImagePreview (rawStep e s) =
          { rawStep e s with revoked := (rawStep e s).revoked ++ [u0] } := by
        rw [hop]
        simp [previewCleanup, hsw]
      rw [hstep, hclean]
      rcases hraw with ⟨hn, hnone⟩ | ⟨hn, hfresh⟩
      · refine ⟨⟨?_, ?_⟩, ?_⟩
        · simpa [hrev, hn, hnone] using hb
        · simpa [hrev, hnone] using hd
        · simp [hrev, hnone]
      · refine ⟨⟨?_, ?_⟩, ?_⟩
        · simpa [hrev, hn, hfresh] using (urlList_extend hb hd).1
        · simpa [hrev, hfresh] using (urlList_extend hb hd).2
        · have hne : some (mkBlobUrl s.nextUrl) ≠ some u0 := by
            intro hcontra
            have := mkBlobUrl_inj ((Option.some.inj hcontra).trans hek)
            omega
          simp [hrev, hfresh, hne]

theorem urlInv_foldSteps : ∀ (es : List Event) (s : Sys), UrlInv s →
    UrlInv (foldSteps s es)
    ∧ (foldSteps s es).revoked.length = s.revoked.length + countSuperseded s es
  | [], s, h => ⟨h, by simp [foldSteps, countSuperseded]⟩
  | e :: es, s, h => by
    obtain ⟨h1, hlen⟩ := step_urlInv e s h
    obtain ⟨h2, hlen2⟩ := urlInv_foldSteps es (step e s) h1
    refine ⟨h2, ?_⟩
    show (foldSteps (step e s) es).revoked.length = _
    rw [hlen2, hlen]
    simp only [countSuperseded]
    omega

/-- C8: resource safety for preview references — along every event sequence
(image selections, reselections, credential changes, teardown, and any other
actions), the number of `URL.revokeObjectURL` calls equals the number of
previously-held previews that were superseded or torn down, and no URL is
ever revoked twice. -/
theorem C8_previews_released_exactly_once (es : List Event) :
    (run es).revoked.length = countSuperseded initSys es
    ∧ (run es).revoked.Nodup := by
  have hinit : UrlInv initSys := by
    constructor
    · intro u hu
      simp [initSys, initApp] at hu
    · simp [initSys, initApp]
  obtain ⟨⟨hb, hd⟩, hlen⟩ := urlInv_foldSteps es initSys hinit
  constructor
  · simpa [initSys] using hlen
  · exact hd.of_append_left

end Echogram
